import Mathlib

/-!
Verification of the DataOps lead-qualification pipeline (src/final.py and its
variants). The deduction scoring engine, the sales-note generator, the
heuristic feature extractor and the extraction fallback guard are embedded
shallowly: Python dictionaries become a record of optional fields, Python
runtime values become an inductive type with explicit truthiness and
coercions, and the two functions that can raise AttributeError on a truthy
non-string field return Except.
-/

set_option maxHeartbeats 1000000

namespace DataOps

/-- Model of a Python runtime value, covering the shapes the scoring code can
receive from JSON decoding or from callers. -/
inductive PyVal where
  | none
  | bool (b : Bool)
  | int (n : Int)
  | float (q : Rat)
  | str (s : String)
  | list (l : List PyVal)
deriving Repr

/-- Python truthiness of a value, as used by the or operator, by if tests and
by the gate not features.get of the scoring code. -/
def PyVal.truthy : PyVal → Bool
  | .none => false
  | .bool b => b
  | .int n => n != 0
  | .float q => q != 0
  | .str s => s != ""
  | .list l => !l.isEmpty

/-- Value of a list of decimal digit characters; fails on the empty list or on
a non-digit. -/
def decDigits? (cs : List Char) : Option Nat :=
  if cs ≠ [] ∧ cs.all Char.isDigit then
    some (cs.foldl (fun a c => 10 * a + (c.toNat - 48)) 0)
  else Option.none

/-- Model of Python int() on a string: optional sign then decimal digits.
The source wraps the call in try and except, so a parse failure is reported
as Option.none and the caller substitutes the default. Python also accepts
surrounding whitespace and underscores; those inputs simply parse to
Option.none here and hence take the same default branch the except clause
takes, which no verified statement distinguishes. -/
def pyIntOfString (s : String) : Option Int :=
  match s.toList with
  | '-' :: rest => (decDigits? rest).map (fun n => -(n : Int))
  | '+' :: rest => (decDigits? rest).map (fun n => (n : Int))
  | cs => (decDigits? cs).map (fun n => (n : Int))

/-- Integer part of a rational, truncated toward zero, as Python int() on a
float value. -/
def ratTrunc (q : Rat) : Int := if 0 ≤ q then ⌊q⌋ else ⌈q⌉

/-- Model of the pallet coercion in score_lead_deduction: int(pallets) when
pallets is not None else 0, and ValueError or TypeError caught giving 0. -/
def coerceIntDefault0 (v : PyVal) : Int :=
  match v with
  | .none => 0
  | .bool b => if b then 1 else 0
  | .int n => n
  | .float q => ratTrunc q
  | .str s => (pyIntOfString s).getD 0
  | .list _ => 0

/-- Model of Python float() on a string: optional sign, digits, optional
point and fraction digits. As with pyIntOfString, inputs outside this subset
degrade to the default the except clause provides. -/
def decFrac? (cs : List Char) : Option Rat :=
  match cs.splitOn '.' with
  | [ip] => (decDigits? ip).map (fun n => (n : Rat))
  | [ip, fp] =>
    match decDigits? ip, decDigits? fp with
    | some n, some f => some ((n : Rat) + (f : Rat) / (10 : Rat) ^ fp.length)
    | _, _ => Option.none
  | _ => Option.none

/-- Model of Python float() on a string, with sign handling. -/
def pyFloatOfString (s : String) : Option Rat :=
  match s.toList with
  | '-' :: rest => (decFrac? rest).map Neg.neg
  | '+' :: rest => decFrac? rest
  | cs => decFrac? cs

/-- Model of the confidence coercion in score_lead_deduction: float(conf)
when conf is not None else 0.5, and ValueError or TypeError caught
giving 0.5. -/
def coerceFloatDefaultHalf (v : PyVal) : Rat :=
  match v with
  | .none => 1/2
  | .bool b => if b then 1 else 0
  | .int n => (n : Rat)
  | .float q => q
  | .str s => (pyFloatOfString s).getD (1/2)
  | .list _ => 1/2

/-- Model of the Python lower method on strings, character by character over
the underlying data. Python lowering is Unicode aware; this model covers the
ASCII range, which is all the verified statements exercise. -/
def pyLower (s : String) : String := ⟨s.data.map Char.toLower⟩

/-- Model of the idiom (v or default).lower() used by the source on the
warehouse_type, approx_scale and industry fields: a falsy value is replaced
by the default string before lowering, while a truthy value must be a string,
otherwise Python raises AttributeError, modelled as Except.error. -/
def lowerOrDefault (v : PyVal) (d : String) : Except String String :=
  if v.truthy then
    match v with
    | .str s => .ok (pyLower s)
    | _ => .error ("AttributeError: object has no attribute lower")
  else .ok (pyLower d)

/-- Boolean prefix test on character lists. -/
def isPrefB : List Char → List Char → Bool
  | [], _ => true
  | _ :: _, [] => false
  | a :: as, b :: bs => a == b && isPrefB as bs

/-- Boolean substring occurrence test on character lists. -/
def hasSub (n : List Char) : List Char → Bool
  | [] => n.isEmpty
  | c :: t => isPrefB n (c :: t) || hasSub n t

/-- Python substring membership: needle in haystack. -/
def strIn (needle hay : String) : Bool := hasSub needle.toList hay.toList

/-- The feature mapping consumed by the scoring code. score_lead_deduction
and make_sales_note read exactly these eight keys and no others, so a record
of optional fields captures every input dictionary: Option.none models a
missing key and some v a present key holding value v. -/
structure FeatDict where
  has_warehouse : Option PyVal
  warehouse_type : Option PyVal
  approx_scale : Option PyVal
  approx_pallet_capacity : Option PyVal
  industry : Option PyVal
  is_public_sector : Option PyVal
  safety_focus : Option PyVal
  website_confidence : Option PyVal
deriving Repr

/-- A dictionary with none of the eight scoring keys present. -/
def emptyDict : FeatDict :=
  ⟨Option.none, Option.none, Option.none, Option.none,
   Option.none, Option.none, Option.none, Option.none⟩

/-- Warehouse-type penalty, block 1 of score_lead_deduction. -/
def wtypeDed (wtype : String) : Int :=
  if wtype = "freezer" then 0
  else if wtype = "mixed" then 10
  else if wtype = "ambient" then 20
  else 30

/-- Scale penalty, block 2 of score_lead_deduction; there is no final else
branch in the source, so every other value deducts nothing. -/
def scaleDed (scale : String) : Int :=
  if scale = "large" then 0
  else if scale = "medium" then 10
  else if scale = "small" then 25
  else 0

/-- Pallet-capacity penalty, block 3 of score_lead_deduction, applied to the
coerced integer value. -/
def palletDed (pallets : Int) : Int :=
  if pallets > 30000 then 0
  else if 7000 ≤ pallets ∧ pallets ≤ 30000 then 5
  else if 1 ≤ pallets ∧ pallets < 7000 then 15
  else 25

/-- The ideal industry keywords of block 4 of score_lead_deduction. -/
def ideal_keywords : List String :=
  ["food", "fish", "frozen", "pharma", "logistics", "3pl", "cold chain"]

/-- The acceptable industry keywords of block 4 of score_lead_deduction. -/
def ok_keywords : List String :=
  ["manufactur", "bouw", "construction", "wholesale", "groothandel"]

/-- Industry penalty, block 4 of score_lead_deduction, applied to the lowered
industry string. -/
def industryDed (industry : String) : Int :=
  if ideal_keywords.any (fun k => strIn k industry) then 0
  else if ok_keywords.any (fun k => strIn k industry) then 10
  else if industry ≠ "" then 40
  else 0

/-- Segment assignment from the clamped score, lines 68 to 71 of the
source. -/
def segmentOf (score : Int) : String :=
  if score ≥ 80 then "A"
  else if score ≥ 60 then "B"
  else if score ≥ 40 then "C"
  else ""

/-- Shallow embedding of score_lead_deduction, src final.py lines 25 to 73
and identically src lambda_function_final.py. The sequential score minus
equal updates of the source are gathered into one subtraction chain over the
per-block penalty functions above, whose branch conditions mirror the source
lines; the coercions and their order, the gate, the clamp, the segment
assignment and the interest flag follow the source statement by statement.
The three lower calls of the source can raise AttributeError on a truthy
non-string value, hence the Except result. -/
def scoreLeadDeduction (features : FeatDict) : Except String (Int × String × Bool) := do
  if !(features.has_warehouse.getD (.bool false)).truthy then
    return (0, "", false)
  let wtype ← lowerOrDefault (features.warehouse_type.getD .none) ("unknown")
  let scale ← lowerOrDefault (features.approx_scale.getD .none) ("unknown")
  let pallets : Int := coerceIntDefault0 (features.approx_pallet_capacity.getD .none)
  let industry ← lowerOrDefault (features.industry.getD .none) ("")
  let pub : Bool := (features.is_public_sector.getD .none).truthy
  let saf : Bool := (features.safety_focus.getD (.bool false)).truthy
  let conf : Rat := coerceFloatDefaultHalf (features.website_confidence.getD .none)
  let score : Int := 100 - wtypeDed wtype - scaleDed scale - palletDed pallets
    - industryDed industry - (if pub then 5 else 0) - (if !saf then 10 else 0)
    - (if conf < 1/2 then 25 else 0)
  let score := max 0 (min 100 score)
  return (score, segmentOf score, decide (score ≥ 40))

/-- Python str() rendering of a value, as interpolated by the f-strings of
make_sales_note. The float and nested list renderings are approximations of
the Python repr; no verified statement depends on those two cases. -/
def pyStr : PyVal → String
  | .none => "None"
  | .bool b => if b then "True" else "False"
  | .int n => toString n
  | .float q => toString q
  | .str s => s
  | .list _ => "[...]"

/-- The join of the source: comma and space between consecutive parts. -/
def joinComma : List String → String
  | [] => ""
  | [p] => p
  | p :: q :: rest => p ++ ", " ++ joinComma (q :: rest)

/-- Shallow embedding of make_sales_note, src final.py lines 76 to 90. The
generator str p for p in parts if p drops exactly the None entries here,
because every string entry of the parts list carries appended literal text
and is therefore truthy. The freezer test of the source lowers wtype or the
empty string, which raises AttributeError on a truthy non-string
warehouse_type value, hence the Except result. -/
def makeSalesNote (features : FeatDict) : Except String String := do
  let wtypeV := features.warehouse_type.getD (.str ("unknown"))
  let palletsV := features.approx_pallet_capacity.getD (.str ("?"))
  let industryV := features.industry.getD (.str ("unknown"))
  let scaleV := features.approx_scale.getD (.str ("unknown"))
  let lowered ← lowerOrDefault wtypeV ("")
  let freezer_flag := strIn ("freezer") lowered
  let part1 := pyStr (if wtypeV.truthy then wtypeV else .str ("unknown")) ++ " warehouse"
  let part2 : Option String :=
    if scaleV.truthy then some ("(" ++ pyStr scaleV ++ ")") else Option.none
  let part3 := "~" ++ pyStr palletsV ++ " pallets"
  let part4 := "industry: " ++ pyStr industryV
  let part5 : Option String :=
    if freezer_flag then some ("[HIGH PRIORITY: freezer]") else Option.none
  let parts := [some part1, part2, some part3, some part4, part5]
  return joinComma (parts.filterMap id)

/-- The whitespace class of the regex escape for whitespace, ASCII range. -/
def isPySpace (c : Char) : Bool :=
  c = ' ' || c = '\t' || c = '\n' || c = '\r' || c = '\x0b' || c = '\x0c'

/-- Consume any further whitespace after the first mandatory one. -/
def dropWsAll : List Char → List Char
  | [] => []
  | c :: t => if isPySpace c then dropWsAll t else c :: t

/-- Consume at least one whitespace character, greedily. -/
def dropWs1 : List Char → Option (List Char)
  | [] => Option.none
  | c :: t => if isPySpace c then some (dropWsAll t) else Option.none

/-- Match one regex alternative, given as its literal words, anchored at the
start of the character list; consecutive words are separated by one or more
whitespace characters in the source pattern. Greedy whitespace consumption is
equivalent to the regex here because every word begins with a non-space
character. -/
def matchWordsAt : List (List Char) → List Char → Bool
  | [], _ => true
  | [w], h => isPrefB w h
  | w :: w2 :: rest, h =>
    isPrefB w h &&
      match dropWs1 (h.drop w.length) with
      | some h2 => matchWordsAt (w2 :: rest) h2
      | Option.none => false

/-- Search every suffix position for a match of any alternative. -/
def reSearchAux (alts : List (List (List Char))) : List Char → Bool
  | [] => alts.any (fun a => matchWordsAt a [])
  | c :: t => alts.any (fun a => matchWordsAt a (c :: t)) || reSearchAux alts t

/-- Model of re.search over the lowered text: true when some alternative of
the pattern matches at some position. -/
def reSearch (alts : List (List String)) (text : String) : Bool :=
  reSearchAux (alts.map (fun a => a.map String.toList)) text.toList

/-- The warehouse term list of heuristic_extract; these are plain substring
membership tests in the source, not regexes. -/
def warehouse_terms : List String :=
  ["warehouse", "distribution center", "dc", "storage facility", "logistics center"]

/-- Alternatives of the freezer regex of heuristic_extract. -/
def freezerPats : List (List String) :=
  [["freez"], ["cold", "chain"], ["refrigerat"], ["cold", "storage"],
   ["temperature", "controlled"]]

/-- Alternatives of the ambient regex of heuristic_extract. -/
def ambientPats : List (List String) := [["ambient"], ["dry", "storage"]]

/-- Alternatives of the third-party-logistics regex of heuristic_extract. -/
def threePlPats : List (List String) := [["3pl"], ["third", "party", "logistics"]]

/-- Alternatives of the food regex of heuristic_extract. -/
def foodPats : List (List String) := [["food"], ["frozen"], ["fresh"]]

/-- Alternatives of the pharma regex of heuristic_extract. -/
def pharmaPats : List (List String) := [["pharma"], ["medical"]]

/-- Alternatives of the certification regex of heuristic_extract. -/
def certPats : List (List String) :=
  [["haccp"], ["iso"], ["brc"], ["ifs"], ["safety"], ["compliance"], ["certified"]]

/-- Alternatives of the public-sector regex of heuristic_extract. -/
def publicPats : List (List String) :=
  [["government"], ["municipality"], ["gemeente"], ["public", "sector"]]

/-- Shallow embedding of heuristic_extract, src final.py lines 157 to 176.
The source builds a default result dictionary holding all eight keys and then
overwrites individual entries from keyword and pattern tests on the lowered
text; the company name is only printed, never used in the result. -/
def heuristicExtract (text : String) (company_name : String) : FeatDict :=
  let text_lower := pyLower text
  let hw := warehouse_terms.any (fun t => strIn t text_lower)
  let wt : String :=
    if reSearch freezerPats text_lower then "freezer"
    else if reSearch ambientPats text_lower then "ambient"
    else "unknown"
  let ind : String :=
    if reSearch threePlPats text_lower then "3PL logistics"
    else if reSearch foodPats text_lower then "food logistics"
    else if reSearch pharmaPats text_lower then "pharma distribution"
    else ""
  let saf := reSearch certPats text_lower
  let pub := reSearch publicPats text_lower
  ⟨some (.bool hw), some (.str wt), some (.str ("unknown")), some .none,
   some (.str ind), some (.bool pub), some (.bool saf), some (.float (3/10))⟩

/-- Shallow embedding of call_bedrock_extract, src final.py lines 179 to 202.
The Bedrock model invocation, a remote network call followed by JSON parsing,
is represented by the remote argument, which may fail; the length guard with
its heuristic fallback and the except fallback are from the source. -/
def callBedrockExtract (remote : String → String → String → Except String FeatDict)
    (company_name location website_text : String) : FeatDict :=
  if website_text = "" ∨ website_text.length < 50 then
    heuristicExtract website_text company_name
  else
    match remote company_name location website_text with
    | .ok features => features
    | .error _ => heuristicExtract website_text company_name

/-- Embed an optional string field value: a missing value is the Python
None. -/
def optStrToPy : Option String → PyVal
  | Option.none => .none
  | some s => .str s

/-- Embed an optional integer field value. -/
def optIntToPy : Option Int → PyVal
  | Option.none => .none
  | some n => .int n

/-- Embed an optional float field value. -/
def optRatToPy : Option Rat → PyVal
  | Option.none => .none
  | some q => .float q

/-- A well-typed Feature Record in the sense of the data model contract:
every key present, the string fields a string or None, the capacity an
integer or None, the flags booleans and the confidence a float or None. -/
structure TypedFeatures where
  has_warehouse : Bool
  warehouse_type : Option String
  approx_scale : Option String
  approx_pallet_capacity : Option Int
  industry : Option String
  is_public_sector : Bool
  safety_focus : Bool
  website_confidence : Option Rat

/-- The dictionary a well-typed Feature Record presents to the code. -/
def TypedFeatures.toDict (r : TypedFeatures) : FeatDict :=
  ⟨some (.bool r.has_warehouse), some (optStrToPy r.warehouse_type),
   some (optStrToPy r.approx_scale), some (optIntToPy r.approx_pallet_capacity),
   some (optStrToPy r.industry), some (.bool r.is_public_sector),
   some (.bool r.safety_focus), some (optRatToPy r.website_confidence)⟩

/-- The string the idiom (v or default).lower() produces on a string-or-None
value: the default for None and for the empty string, the lowered string
otherwise. -/
def lowStr (w : Option String) (d : String) : String :=
  match w with
  | Option.none => pyLower d
  | some s => if s = "" then pyLower d else pyLower s

theorem exceptBindOk {α β ε : Type} (a : α) (f : α → Except ε β) :
    (Except.ok a : Except ε α) >>= f = f a := rfl

theorem lowerOrDefault_optStr (w : Option String) (d : String) :
    lowerOrDefault (optStrToPy w) d = .ok (lowStr w d) := by
  cases w with
  | none => simp [lowerOrDefault, optStrToPy, PyVal.truthy, lowStr]
  | some s =>
    by_cases hs : s = "" <;>
      simp [lowerOrDefault, optStrToPy, PyVal.truthy, lowStr, hs]

theorem coerceInt_optInt (p : Option Int) :
    coerceIntDefault0 (optIntToPy p) = p.getD 0 := by
  cases p <;> rfl

theorem coerceFloat_optRat (c : Option Rat) :
    coerceFloatDefaultHalf (optRatToPy c) = c.getD (1/2) := by
  cases c <;> rfl

/-- The unclamped score a well-typed record reaches after all seven penalty
blocks, written as the subtraction chain of the source. -/
def typedRaw (r : TypedFeatures) : Int :=
  100 - wtypeDed (lowStr r.warehouse_type ("unknown"))
    - scaleDed (lowStr r.approx_scale ("unknown"))
    - palletDed (r.approx_pallet_capacity.getD 0)
    - industryDed (lowStr r.industry (""))
    - (if r.is_public_sector then 5 else 0)
    - (if !r.safety_focus then 10 else 0)
    - (if (r.website_confidence.getD (1/2)) < 1/2 then 25 else 0)

/-- The clamped score of a well-typed record. -/
def typedScore (r : TypedFeatures) : Int := max 0 (min 100 (typedRaw r))

/-- On a well-typed record whose gate passes, the embedded code computes the
clamped subtraction chain, the segment of that score and the interest
flag. -/
theorem scoreLeadDeduction_toDict (r : TypedFeatures) (hw : r.has_warehouse = true) :
    scoreLeadDeduction r.toDict =
      .ok (typedScore r, segmentOf (typedScore r), decide (typedScore r ≥ 40)) := by
  unfold scoreLeadDeduction TypedFeatures.toDict
  simp [hw, PyVal.truthy, lowerOrDefault_optStr, coerceInt_optInt, coerceFloat_optRat,
        typedScore, typedRaw, exceptBindOk]

/-- The gate of the source: a missing or falsy has_warehouse value returns
the zero result at once. -/
theorem scoreLeadDeduction_gate (features : FeatDict)
    (h : (features.has_warehouse.getD (.bool false)).truthy = false) :
    scoreLeadDeduction features = .ok (0, "", false) := by
  unfold scoreLeadDeduction
  simp [h]
  rfl

/-- Claim-side warehouse-type deduction, following the wording of the spec:
freezer 0, mixed 10, ambient 20, anything else including unknown 30, matched
on the lower-cased value, a missing value standing for unknown. -/
def specWtypeDed (w : Option String) : Int :=
  if pyLower (w.getD ("unknown")) = "freezer" then 0
  else if pyLower (w.getD ("unknown")) = "mixed" then 10
  else if pyLower (w.getD ("unknown")) = "ambient" then 20
  else 30

/-- Claim-side scale deduction: large 0, medium 10, small 25, anything else
including unknown 0. -/
def specScaleDed (sc : Option String) : Int :=
  if pyLower (sc.getD ("unknown")) = "large" then 0
  else if pyLower (sc.getD ("unknown")) = "medium" then 10
  else if pyLower (sc.getD ("unknown")) = "small" then 25
  else 0

/-- Claim-side pallet-capacity deduction: above 30000 nothing, 7000 to 30000
inclusive 5, 1 to 6999 inclusive 15, otherwise including None 25. -/
def specPalletDed : Option Int → Int
  | some n =>
    if n > 30000 then 0
    else if 7000 ≤ n ∧ n ≤ 30000 then 5
    else if 1 ≤ n ∧ n ≤ 6999 then 15
    else 25
  | Option.none => 25

/-- Claim-side industry deduction on the lower-cased string: an ideal keyword
occurrence 0, else an ok keyword occurrence 10, else non-empty 40, else
empty 0. -/
def specIndustryDed (i : Option String) : Int :=
  if ideal_keywords.any (fun k => strIn k (pyLower (i.getD ("")))) then 0
  else if ok_keywords.any (fun k => strIn k (pyLower (i.getD ("")))) then 10
  else if pyLower (i.getD ("")) ≠ "" then 40
  else 0

/-- Claim-side total deduction: the sum of the seven documented terms, with
the public-sector term 5 when the flag is true, the safety term 10 when the
flag is false, and the confidence term 25 when a present confidence is below
one half, a missing confidence standing for the default one half. -/
def specTotalDed (w sc : Option String) (p : Option Int) (i : Option String)
    (pub sf : Bool) (c : Option Rat) : Int :=
  specWtypeDed w + specScaleDed sc + specPalletDed p + specIndustryDed i
    + (if pub then 5 else 0) + (if sf then 0 else 10)
    + (match c with
       | some q => if q < 1/2 then 25 else 0
       | Option.none => 0)

theorem wtypeDed_lowStr (w : Option String) :
    wtypeDed (lowStr w ("unknown")) = specWtypeDed w := by
  cases w with
  | none => decide
  | some s =>
    by_cases hs : s = ""
    · subst hs; decide
    · simp [lowStr, hs, wtypeDed, specWtypeDed]

theorem scaleDed_lowStr (sc : Option String) :
    scaleDed (lowStr sc ("unknown")) = specScaleDed sc := by
  cases sc with
  | none => decide
  | some s =>
    by_cases hs : s = ""
    · subst hs; decide
    · simp [lowStr, hs, scaleDed, specScaleDed]

theorem palletDed_getD (p : Option Int) :
    palletDed (p.getD 0) = specPalletDed p := by
  cases p with
  | none => decide
  | some n =>
    show palletDed n = _
    simp only [specPalletDed]
    unfold palletDed
    split_ifs <;> omega

theorem industryDed_lowStr (i : Option String) :
    industryDed (lowStr i ("")) = specIndustryDed i := by
  cases i with
  | none => decide
  | some s =>
    by_cases hs : s = ""
    · subst hs; decide
    · simp [lowStr, hs, industryDed, specIndustryDed]

theorem typedRaw_eq_spec (hw : Bool) (w sc : Option String) (p : Option Int)
    (i : Option String) (pub sf : Bool) (c : Option Rat) :
    typedRaw ⟨hw, w, sc, p, i, pub, sf, c⟩
      = 100 - specTotalDed w sc p i pub sf c := by
  unfold typedRaw specTotalDed
  rw [wtypeDed_lowStr, scaleDed_lowStr, palletDed_getD, industryDed_lowStr]
  cases sf <;> cases c <;> simp [lt_irrefl] <;> ring

/-- C1: on every well-typed gated Feature Record, score_lead_deduction
returns the score max 0 (min 100 (100 - d)) where d is the sum of the seven
documented deduction terms: warehouse type, scale, pallet capacity, industry
keywords, public sector, safety focus and extraction confidence. -/
theorem C1_deduction_score (w sc : Option String) (p : Option Int) (i : Option String)
    (pub sf : Bool) (c : Option Rat) :
    ∃ seg b,
      scoreLeadDeduction (TypedFeatures.toDict ⟨true, w, sc, p, i, pub, sf, c⟩)
        = .ok (max 0 (min 100 (100 - specTotalDed w sc p i pub sf c)), seg, b) := by
  have h2 : typedScore ⟨true, w, sc, p, i, pub, sf, c⟩
      = max 0 (min 100 (100 - specTotalDed w sc p i pub sf c)) := by
    unfold typedScore
    rw [typedRaw_eq_spec]
  refine ⟨segmentOf (typedScore ⟨true, w, sc, p, i, pub, sf, c⟩),
    decide (typedScore ⟨true, w, sc, p, i, pub, sf, c⟩ ≥ 40), ?_⟩
  rw [scoreLeadDeduction_toDict ⟨true, w, sc, p, i, pub, sf, c⟩ rfl, h2]

/-- C2: whenever the has_warehouse entry is missing, false or otherwise
falsy, score_lead_deduction returns exactly the triple of score zero, empty
segment and interest flag false, with no deduction term evaluated. -/
theorem C2_gate (features : FeatDict)
    (h : (features.has_warehouse.getD (.bool false)).truthy = false) :
    scoreLeadDeduction features = .ok (0, "", false) :=
  scoreLeadDeduction_gate features h

/-- C2 witness: the empty dictionary takes the gate. -/
theorem C2_gate_witness :
    ((emptyDict.has_warehouse.getD (.bool false)).truthy = false)
      ∧ scoreLeadDeduction emptyDict = .ok (0, "", false) :=
  ⟨rfl, C2_gate emptyDict rfl⟩

/-- C4: on every well-typed Feature Record the returned segment is the
documented function of the returned clamped score and the interest flag is
the comparison with 40; moreover the segment function takes the documented
values at the boundary scores 80, 79, 60, 59, 40 and 39. -/
theorem C4_segment_function (r : TypedFeatures) :
    (∃ s seg b, scoreLeadDeduction r.toDict = .ok (s, seg, b)
        ∧ seg = segmentOf s ∧ b = decide (s ≥ 40))
    ∧ segmentOf 80 = "A" ∧ segmentOf 79 = "B" ∧ segmentOf 60 = "B"
    ∧ segmentOf 59 = "C" ∧ segmentOf 40 = "C" ∧ segmentOf 39 = "" := by
  refine ⟨?_, by decide, by decide, by decide, by decide, by decide, by decide⟩
  cases hw : r.has_warehouse with
  | true => exact ⟨_, _, _, scoreLeadDeduction_toDict r hw, rfl, rfl⟩
  | false =>
    refine ⟨0, "", false, scoreLeadDeduction_gate _ ?_, by decide, by decide⟩
    simp [TypedFeatures.toDict, PyVal.truthy, hw]

theorem wtypeDed_nonneg (s : String) : 0 ≤ wtypeDed s := by
  unfold wtypeDed
  split_ifs <;> decide

theorem scaleDed_nonneg (s : String) : 0 ≤ scaleDed s := by
  unfold scaleDed
  split_ifs <;> decide

theorem palletDed_nonneg (n : Int) : 0 ≤ palletDed n := by
  unfold palletDed
  split_ifs <;> decide

theorem industryDed_nonneg (s : String) : 0 ≤ industryDed s := by
  unfold industryDed
  split_ifs <;> decide

theorem typedRaw_le_100 (r : TypedFeatures) : typedRaw r ≤ 100 := by
  unfold typedRaw
  have h1 := wtypeDed_nonneg (lowStr r.warehouse_type ("unknown"))
  have h2 := scaleDed_nonneg (lowStr r.approx_scale ("unknown"))
  have h3 := palletDed_nonneg (r.approx_pallet_capacity.getD 0)
  have h4 := industryDed_nonneg (lowStr r.industry (""))
  have h5 : (0:Int) ≤ if r.is_public_sector then 5 else 0 := by split <;> decide
  have h6 : (0:Int) ≤ if !r.safety_focus then 10 else 0 := by split <;> decide
  have h7 : (0:Int) ≤ if r.website_confidence.getD (1/2) < 1/2 then 25 else 0 := by
    split <;> decide
  omega

theorem typedScore_eq_raw (r : TypedFeatures) (h : 0 ≤ typedRaw r) :
    typedScore r = typedRaw r := by
  unfold typedScore
  have := typedRaw_le_100 r
  omega

/-- A single-field rewrite of a well-typed Feature Record: each constructor
names one of the seven feature fields below the gate and carries its new
value. -/
inductive FieldUpdate where
  | wtype (v : Option String)
  | scale (v : Option String)
  | pallets (v : Option Int)
  | industry (v : Option String)
  | publicSector (v : Bool)
  | safety (v : Bool)
  | confidence (v : Option Rat)

/-- Apply a single-field rewrite, leaving every other field unchanged. -/
def applyUpdate (r : TypedFeatures) : FieldUpdate → TypedFeatures
  | .wtype v => ⟨r.has_warehouse, v, r.approx_scale, r.approx_pallet_capacity,
      r.industry, r.is_public_sector, r.safety_focus, r.website_confidence⟩
  | .scale v => ⟨r.has_warehouse, r.warehouse_type, v, r.approx_pallet_capacity,
      r.industry, r.is_public_sector, r.safety_focus, r.website_confidence⟩
  | .pallets v => ⟨r.has_warehouse, r.warehouse_type, r.approx_scale, v,
      r.industry, r.is_public_sector, r.safety_focus, r.website_confidence⟩
  | .industry v => ⟨r.has_warehouse, r.warehouse_type, r.approx_scale,
      r.approx_pallet_capacity, v, r.is_public_sector, r.safety_focus,
      r.website_confidence⟩
  | .publicSector v => ⟨r.has_warehouse, r.warehouse_type, r.approx_scale,
      r.approx_pallet_capacity, r.industry, v, r.safety_focus,
      r.website_confidence⟩
  | .safety v => ⟨r.has_warehouse, r.warehouse_type, r.approx_scale,
      r.approx_pallet_capacity, r.industry, r.is_public_sector, v,
      r.website_confidence⟩
  | .confidence v => ⟨r.has_warehouse, r.warehouse_type, r.approx_scale,
      r.approx_pallet_capacity, r.industry, r.is_public_sector, r.safety_focus,
      v⟩

/-- The deduction value of the field a rewrite touches, read off a record. -/
def dedAt (r : TypedFeatures) : FieldUpdate → Int
  | .wtype _ => wtypeDed (lowStr r.warehouse_type ("unknown"))
  | .scale _ => scaleDed (lowStr r.approx_scale ("unknown"))
  | .pallets _ => palletDed (r.approx_pallet_capacity.getD 0)
  | .industry _ => industryDed (lowStr r.industry (""))
  | .publicSector _ => if r.is_public_sector then 5 else 0
  | .safety _ => if !r.safety_focus then 10 else 0
  | .confidence _ => if r.website_confidence.getD (1/2) < 1/2 then 25 else 0

theorem applyUpdate_hw (r : TypedFeatures) (u : FieldUpdate) :
    (applyUpdate r u).has_warehouse = r.has_warehouse := by
  cases u <;> rfl

theorem typedRaw_applyUpdate (r : TypedFeatures) (u : FieldUpdate) :
    typedRaw r - typedRaw (applyUpdate r u)
      = dedAt (applyUpdate r u) u - dedAt r u := by
  cases u <;> simp [typedRaw, applyUpdate, dedAt]

/-- C5: on two gated well-typed Feature Records that differ in a single
feature field, when neither unclamped total crosses the zero clamp floor, the
difference of the two returned scores is exactly the difference of that
single field deduction value. -/
theorem C5_independence (r : TypedFeatures) (u : FieldUpdate)
    (hw : r.has_warehouse = true)
    (h1 : 0 ≤ typedRaw r) (h2 : 0 ≤ typedRaw (applyUpdate r u)) :
    ∃ s seg b s2 seg2 b2,
      scoreLeadDeduction r.toDict = .ok (s, seg, b)
      ∧ scoreLeadDeduction (applyUpdate r u).toDict = .ok (s2, seg2, b2)
      ∧ s2 - s = dedAt r u - dedAt (applyUpdate r u) u := by
  have hw2 : (applyUpdate r u).has_warehouse = true := by
    rw [applyUpdate_hw]
    exact hw
  refine ⟨typedScore r, _, _, typedScore (applyUpdate r u), _, _,
    scoreLeadDeduction_toDict r hw, scoreLeadDeduction_toDict _ hw2, ?_⟩
  rw [typedScore_eq_raw r h1, typedScore_eq_raw _ h2]
  have hd := typedRaw_applyUpdate r u
  omega

/-- A fully ideal well-typed record: no deduction term fires on it. -/
def idealRec : TypedFeatures :=
  ⟨true, some ("freezer"), some ("large"), some 35000, some ("frozen food"),
   false, true, Option.none⟩

/-- C5 witness: rewriting the warehouse type of the ideal record to mixed
moves the score by exactly the warehouse-type delta. -/
theorem C5_independence_witness :
    ∃ s seg b s2 seg2 b2,
      scoreLeadDeduction idealRec.toDict = .ok (s, seg, b)
      ∧ scoreLeadDeduction (applyUpdate idealRec (.wtype (some ("mixed")))).toDict
          = .ok (s2, seg2, b2)
      ∧ s2 - s = dedAt idealRec (.wtype (some ("mixed")))
          - dedAt (applyUpdate idealRec (.wtype (some ("mixed"))))
              (.wtype (some ("mixed"))) :=
  C5_independence idealRec (.wtype (some ("mixed"))) rfl
    (by simp [idealRec, typedRaw]; decide)
    (by simp [idealRec, typedRaw, applyUpdate]; decide)

/-- C9: a negative coerced pallet capacity falls through all three positive
branches into the final else branch, deducting 25 like a capacity of zero or
a missing value, so the whole scoring result agrees with the same record
carrying no capacity at all. -/
theorem C9_negative_capacity (r : TypedFeatures) (n : Int) (hn : n < 0)
    (hw : r.has_warehouse = true) :
    palletDed n = 25 ∧ palletDed 0 = 25
    ∧ scoreLeadDeduction (applyUpdate r (.pallets (some n))).toDict
        = scoreLeadDeduction (applyUpdate r (.pallets Option.none)).toDict := by
  have hp : palletDed n = 25 := by
    unfold palletDed
    split_ifs <;> omega
  refine ⟨hp, by decide, ?_⟩
  have hw1 : (applyUpdate r (.pallets (some n))).has_warehouse = true := by
    rw [applyUpdate_hw]
    exact hw
  have hw2 : (applyUpdate r (.pallets Option.none)).has_warehouse = true := by
    rw [applyUpdate_hw]
    exact hw
  rw [scoreLeadDeduction_toDict _ hw1, scoreLeadDeduction_toDict _ hw2]
  have h0 : palletDed 0 = 25 := by decide
  have hr : typedRaw (applyUpdate r (.pallets (some n)))
      = typedRaw (applyUpdate r (.pallets Option.none)) := by
    simp [typedRaw, applyUpdate, hp, h0]
  have hsc : typedScore (applyUpdate r (.pallets (some n)))
      = typedScore (applyUpdate r (.pallets Option.none)) := by
    unfold typedScore
    rw [hr]
  rw [hsc]

/-- C9 witness: capacity minus one on the ideal record scores like a missing
capacity. -/
theorem C9_negative_capacity_witness :
    palletDed (-1) = 25 ∧ palletDed 0 = 25
    ∧ scoreLeadDeduction (applyUpdate idealRec (.pallets (some (-1)))).toDict
        = scoreLeadDeduction (applyUpdate idealRec (.pallets Option.none)).toDict :=
  C9_negative_capacity idealRec (-1) (by decide) rfl

/-- The dictionary holding has_warehouse true and an integer-valued
warehouse_type, a shape the spec declares must degrade to a default. -/
def c3FailingInput : FeatDict :=
  ⟨some (.bool true), some (.int 5), Option.none, Option.none, Option.none,
   Option.none, Option.none, Option.none⟩

/-- C3: the spec demands score_lead_deduction never fail on any value
shapes, but a truthy non-string warehouse_type reaches lower and raises
AttributeError; on every well-typed record the claim does hold, the call
succeeds with an integer score within 0 and 100. -/
theorem C3_no_failure_violated :
    scoreLeadDeduction c3FailingInput
        = .error ("AttributeError: object has no attribute lower")
    ∧ ∀ r : TypedFeatures, ∃ s seg b,
        scoreLeadDeduction r.toDict = .ok (s, seg, b) ∧ 0 ≤ s ∧ s ≤ 100 := by
  constructor
  · rfl
  · intro r
    cases hw : r.has_warehouse with
    | false =>
      refine ⟨0, "", false, scoreLeadDeduction_gate _ ?_, by decide, by decide⟩
      simp [TypedFeatures.toDict, PyVal.truthy, hw]
    | true =>
      refine ⟨_, _, _, scoreLeadDeduction_toDict r hw, ?_, ?_⟩
      · exact le_max_left 0 _
      · exact max_le (by decide) (min_le_left _ _)

/-- The well-typed record the heuristic extractor always produces, with the
scale left at unknown, the capacity left missing and the confidence fixed
at three tenths. -/
def heuristicTyped (text : String) : TypedFeatures :=
  ⟨warehouse_terms.any (fun t => strIn t (pyLower text)),
   some (if reSearch freezerPats (pyLower text) then "freezer"
     else if reSearch ambientPats (pyLower text) then "ambient" else "unknown"),
   some ("unknown"), Option.none,
   some (if reSearch threePlPats (pyLower text) then "3PL logistics"
     else if reSearch foodPats (pyLower text) then "food logistics"
     else if reSearch pharmaPats (pyLower text) then "pharma distribution"
     else ""),
   reSearch publicPats (pyLower text), reSearch certPats (pyLower text),
   some ((3 : Rat)/10)⟩

theorem heuristicExtract_eq_toDict (text c : String) :
    heuristicExtract text c = (heuristicTyped text).toDict := rfl

theorem segmentOf_le_50 (s : Int) (h : s ≤ 50) :
    segmentOf s = "C" ∨ segmentOf s = "" := by
  unfold segmentOf
  split_ifs with h1 h2 h3
  · omega
  · omega
  · exact Or.inl rfl
  · exact Or.inr rfl

/-- C7: on every text and company name, the heuristic extractor yields a
mapping in which all eight Feature Record keys are present and the website
confidence is exactly three tenths; it is a total function by
construction. -/
theorem C7_heuristic_contract (text company_name : String) :
    (heuristicExtract text company_name).has_warehouse.isSome = true
    ∧ (heuristicExtract text company_name).warehouse_type.isSome = true
    ∧ (heuristicExtract text company_name).approx_scale.isSome = true
    ∧ (heuristicExtract text company_name).approx_pallet_capacity.isSome = true
    ∧ (heuristicExtract text company_name).industry.isSome = true
    ∧ (heuristicExtract text company_name).is_public_sector.isSome = true
    ∧ (heuristicExtract text company_name).safety_focus.isSome = true
    ∧ (heuristicExtract text company_name).website_confidence
        = some (.float ((3 : Rat)/10)) :=
  ⟨rfl, rfl, rfl, rfl, rfl, rfl, rfl, rfl⟩

/-- C8: on empty or sub-minimum-length website text the extraction caller
returns exactly the heuristic extraction of that text, whatever the remote
collaborator would do. -/
theorem C8_short_text_fallback
    (remote : String → String → String → Except String FeatDict)
    (company_name location website_text : String)
    (h : website_text = "" ∨ website_text.length < 50) :
    callBedrockExtract remote company_name location website_text
      = heuristicExtract website_text company_name := by
  unfold callBedrockExtract
  rw [if_pos h]

/-- C8 witness: the empty text with an always-failing remote collaborator. -/
theorem C8_short_text_fallback_witness :
    (("" : String) = "" ∨ ("" : String).length < 50)
    ∧ callBedrockExtract (fun _ _ _ => .error ("down")) ("Acme") ("NL") ("")
        = heuristicExtract ("") ("Acme") :=
  ⟨Or.inl rfl, C8_short_text_fallback _ _ _ _ (Or.inl rfl)⟩

/-- C10: a heuristic-extracted record never scores above 50, because the
missing pallet capacity always deducts 25 and the fixed confidence of three
tenths always deducts another 25, so the segment is C or empty and never A
or B. -/
theorem C10_heuristic_conservative (text company_name : String) :
    ∃ s seg b,
      scoreLeadDeduction (heuristicExtract text company_name) = .ok (s, seg, b)
      ∧ s ≤ 50 ∧ (seg = "C" ∨ seg = "") := by
  rw [heuristicExtract_eq_toDict]
  cases hhw : (heuristicTyped text).has_warehouse with
  | false =>
    refine ⟨0, "", false, scoreLeadDeduction_gate _ ?_, by decide, Or.inr rfl⟩
    simp [TypedFeatures.toDict, PyVal.truthy, hhw]
  | true =>
    have hconf : (if ((heuristicTyped text).website_confidence.getD (1/2)) < 1/2
        then (25 : Int) else 0) = 25 := by
      show (if ((3 : Rat)/10) < 1/2 then (25 : Int) else 0) = 25
      rw [if_pos (by norm_num : ((3 : Rat)/10) < 1/2)]
    have hpal : palletDed ((heuristicTyped text).approx_pallet_capacity.getD 0) = 25 := by
      show palletDed ((Option.none : Option Int).getD 0) = 25
      decide
    have h50 : typedRaw (heuristicTyped text) ≤ 50 := by
      unfold typedRaw
      rw [hconf, hpal]
      have h1 := wtypeDed_nonneg (lowStr (heuristicTyped text).warehouse_type ("unknown"))
      have h2 := scaleDed_nonneg (lowStr (heuristicTyped text).approx_scale ("unknown"))
      have h4 := industryDed_nonneg (lowStr (heuristicTyped text).industry (""))
      have h5 : (0:Int) ≤ if (heuristicTyped text).is_public_sector then 5 else 0 := by
        split <;> decide
      have h6 : (0:Int) ≤ if !(heuristicTyped text).safety_focus then 10 else 0 := by
        split <;> decide
      omega
    have hs : typedScore (heuristicTyped text) ≤ 50 := by
      unfold typedScore
      exact max_le (by decide) (le_trans (min_le_right _ _) h50)
    exact ⟨_, _, _, scoreLeadDeduction_toDict _ hhw, hs, segmentOf_le_50 _ hs⟩

/-- A dictionary whose industry key is present and holds the empty string;
every other key is missing. -/
def c6Input : FeatDict :=
  ⟨Option.none, Option.none, Option.none, Option.none, some (.str ("")),
   Option.none, Option.none, Option.none⟩

/-- C6, counterexample: a present empty industry is rendered as the empty
string by the f-string, not as its default token unknown, so the claim that
every falsy field is rendered as its literal default token fails. -/
theorem C6_note_counterexample :
    makeSalesNote c6Input
        = .ok ("unknown warehouse, (unknown), ~? pallets, industry: ")
    ∧ strIn ("industry: unknown")
        ("unknown warehouse, (unknown), ~? pallets, industry: ") = false := by
  exact ⟨rfl, by decide⟩

/-- The example record of the claim: freezer type, large scale, capacity
12000, industry 3PL. -/
def c6Example : FeatDict :=
  ⟨Option.none, some (.str ("freezer")), some (.str ("large")), some (.int 12000),
   some (.str ("3PL")), Option.none, Option.none, Option.none⟩

/-- A dictionary whose pallet key is present and holds None. -/
def c6NonePallets : FeatDict :=
  ⟨Option.none, Option.none, Option.none, some .none, Option.none,
   Option.none, Option.none, Option.none⟩

/-- A dictionary whose warehouse type key is present and holds the empty
string. -/
def c6EmptyWtype : FeatDict :=
  ⟨Option.none, some (.str ("")), Option.none, Option.none, Option.none,
   Option.none, Option.none, Option.none⟩

/-- A dictionary whose scale key is present and holds the empty string. -/
def c6EmptyScale : FeatDict :=
  ⟨Option.none, Option.none, some (.str ("")), Option.none, Option.none,
   Option.none, Option.none, Option.none⟩

/-- C6, amended: a missing field is rendered as its default token (unknown
for warehouse type, scale and industry, the question mark for the pallet
capacity), and a falsy present warehouse_type is rendered as unknown; but a
falsy present industry or pallet value is rendered by its Python string form
(empty, None, zero) rather than by the default token; the scale parenthetical
is omitted exactly when the present scale value is falsy, a missing scale
rendering as the unknown parenthetical; the freezer suffix is appended
exactly when the lowered warehouse type contains freezer; and the example
record yields the two documented substrings. -/
theorem C6_note_amended :
    makeSalesNote emptyDict
        = .ok ("unknown warehouse, (unknown), ~? pallets, industry: unknown")
    ∧ makeSalesNote c6NonePallets
        = .ok ("unknown warehouse, (unknown), ~None pallets, industry: unknown")
    ∧ makeSalesNote c6EmptyWtype
        = .ok ("unknown warehouse, (unknown), ~? pallets, industry: unknown")
    ∧ makeSalesNote c6EmptyScale
        = .ok ("unknown warehouse, ~? pallets, industry: unknown")
    ∧ makeSalesNote c6Example
        = .ok ("freezer warehouse, (large), ~12000 pallets, industry: 3PL, [HIGH PRIORITY: freezer]")
    ∧ strIn ("[HIGH PRIORITY: freezer]")
        ("freezer warehouse, (large), ~12000 pallets, industry: 3PL, [HIGH PRIORITY: freezer]") = true
    ∧ strIn ("~12000 pallets")
        ("freezer warehouse, (large), ~12000 pallets, industry: 3PL, [HIGH PRIORITY: freezer]") = true
    ∧ ∀ w : String,
        makeSalesNote ⟨Option.none, some (.str w), Option.none, Option.none,
            Option.none, Option.none, Option.none, Option.none⟩
          = .ok (((if w = "" then "unknown" else w)
              ++ " warehouse, (unknown), ~? pallets, industry: unknown")
              ++ (if strIn ("freezer") (pyLower w)
                  then ", [HIGH PRIORITY: freezer]" else "")) := by
  refine ⟨rfl, rfl, rfl, rfl, rfl, by decide, by decide, ?_⟩
  intro w
  by_cases hw : w = ""
  · subst hw
    rfl
  · have hlow : lowerOrDefault (.str w) ("") = .ok (pyLower w) := by
      simp [lowerOrDefault, PyVal.truthy, hw]
    have ht : (PyVal.str w).truthy = true := by
      simp [PyVal.truthy, hw]
    by_cases hf : strIn ("freezer") (pyLower w) = true
    · simp only [makeSalesNote, hlow, exceptBindOk, ht, hf, if_true, if_pos, hw,
        if_false, pyStr, List.filterMap, joinComma, Option.getD_some, Option.getD_none]
      simp [hf, hw, joinComma, String.append_assoc]
      congr 1
    · simp only [makeSalesNote, hlow, exceptBindOk, ht, hf, if_true, if_pos, hw,
        if_false, pyStr, List.filterMap, joinComma, Option.getD_some, Option.getD_none]
      simp [hf, hw, joinComma, String.append_assoc]
      congr 1

end DataOps
